import Mathlib

set_option maxRecDepth 16384

/-!
Verification development for the Flask-starter availability backend.

The definitions below are a shallow embedding of the Python source:

* `functions.py` — `calculate_hours`, `calculate_load`, the directory
  lookups (`get_employees_from_practice`, `get_employee_by_name`,
  `get_employee_name_by_id`), the two availability queries
  (`check_availability`, `check_employee_availability`), the upstream
  fetchers (`get_employees`, `get_plannings`) and the LLM orchestration
  (`GPT_conversation`).
* `entities.py` — `Allocation` and its `toString` renderer.

Modelling conventions:

* Calendar dates are proleptic-Gregorian triples `(year, month, day)`;
  `rataDie` numbers days from 0001-01-01 (= day 1).  For the valid dates
  accepted by Python's `strptime('%Y-%m-%d')`, chronological order of
  `datetime` objects coincides with `rataDie` order, and
  `datetime.weekday()` (Monday = 0) equals `pyWeekday ∘ rataDie`.
* Python numbers are `PyNum`: an `int` (`pint`) or a `float` (`pfloat`)
  carried as an exact rational.  `int()` on a float truncates toward
  zero (`Int.tdiv`).  `pyNumStr` is Python's `str`/f-string rendering;
  it is exact for ints and for integer-valued floats (`repr(0.0)` is
  `"0.0"`), which are the only floats this program ever formats.
* Network effects are made explicit: the fetchers take the upstream
  HTTP response `(status, body)` as an argument and return
  `Except String body` (`"HTTPError"` models
  `requests.exceptions.HTTPError`); `check_employee_availability_fetch`
  additionally counts how many planning fetches were issued.
* The LLM client is a scripted backend `respond : Request → AssistantMessage`
  (the spec itself prescribes testing against such a fake backend);
  `PyResult` separates normal returns from uncaught Python exceptions
  (`KeyError` on an unknown tool name, `AttributeError` when the
  renderer iterates the `{'error': ...}` dict).
-/

/-- A calendar date as parsed by `datetime.strptime(.., '%Y-%m-%d')`. -/
structure Date where
  year : Nat
  month : Nat
  day : Nat
deriving DecidableEq, Repr

/-- Gregorian leap-year test. -/
def isLeap (y : Nat) : Bool :=
  y % 4 == 0 && (y % 100 != 0 || y % 400 == 0)

/-- Number of days of month `m` (1..12) of year `y`. -/
def daysInMonth (y : Nat) : Nat → Nat
  | 1 => 31
  | 2 => if isLeap y then 29 else 28
  | 3 => 31
  | 4 => 30
  | 5 => 31
  | 6 => 30
  | 7 => 31
  | 8 => 31
  | 9 => 30
  | 10 => 31
  | 11 => 30
  | 12 => 31
  | _ => 0

/-- Days of year `y` that precede the first day of month `m`. -/
def daysBeforeMonth (y m : Nat) : Nat :=
  ((List.range (m - 1)).map (fun i => daysInMonth y (i + 1))).foldl (· + ·) 0

/-- Days that precede January 1 of year `y` (proleptic Gregorian). -/
def daysBeforeYear (y : Nat) : Nat :=
  365 * (y - 1) + (y - 1) / 4 - (y - 1) / 100 + (y - 1) / 400

/-- Rata-die day number: 0001-01-01 is day 1. -/
def rataDie (d : Date) : Nat :=
  daysBeforeYear d.year + daysBeforeMonth d.year d.month + d.day

/-- Python `datetime.weekday()` of rata-die day `n`: Monday = 0 .. Sunday = 6
(0001-01-01 was a Monday). -/
def pyWeekday (n : Nat) : Nat :=
  (n - 1) % 7

/-- Python `from_date > to_date` on the parsed `datetime` objects (for valid
dates, chronological order coincides with rata-die order). -/
def dateGt (a b : Date) : Bool :=
  rataDie b < rataDie a

/-- The loop of `calculate_hours`: starting at rata-die day `start`, walk `n`
consecutive days adding 8 hours for each weekday (`weekday() < 5`). -/
def hoursFrom (start : Nat) : Nat → Nat
  | 0 => 0
  | n + 1 => (if pyWeekday start < 5 then 8 else 0) + hoursFrom (start + 1) n

/-- `functions.calculate_hours`: total work hours between two dates, 8 per
Monday–Friday day of the inclusive range, 0 when `from_date > to_date`. -/
def calculate_hours (from_date to_date : Date) : Nat :=
  if dateGt from_date to_date then 0
  else hoursFrom (rataDie from_date) (rataDie to_date - rataDie from_date + 1)

/-- A Python number: an `int`, or a `float` carried as an exact rational. -/
inductive PyNum where
  | pint (n : Int)
  | pfloat (q : Rat)
deriving DecidableEq, Repr

/-- Python `str`/f-string rendering of a `PyNum`.  Exact for ints and for
integer-valued floats (`repr(0.0) = "0.0"`, `repr(50.0) = "50.0"`), the only
floats this program ever formats; non-integer floats (never reached by the
program's formatting sites) fall back to the rational's own rendering. -/
def pyNumStr : PyNum → String
  | .pint n => toString n
  | .pfloat q => if q.den == 1 then toString q.num ++ ".0" else toString q

/-- Python `int()` applied to a `PyNum`: floats truncate toward zero
(floor for nonnegative values, ceiling for negative ones). -/
def pyInt : PyNum → Int
  | .pint n => n
  | .pfloat q => if 0 ≤ q then ⌊q⌋ else ⌈q⌉

/-- `functions.calculate_load`: percentage of `load_hours` against the work
hours of the range; the Python `/` is true division, so the result is a
float unless the zero-denominator guard returns the int `0`. -/
def calculate_load (load_hours : Rat) (from_date to_date : Date) : PyNum :=
  let total_work_hours := calculate_hours from_date to_date
  if total_work_hours == 0 then .pint 0
  else .pfloat (load_hours / (total_work_hours : Rat) * 100)

/-- Python `str.lower` (character-wise ASCII lowering, as the directory's
names and tags use). -/
def pyLower (s : String) : String :=
  ⟨s.data.map Char.toLower⟩

/-- One employee record of the upstream directory body
(`{id, name, surname, tags: [{name}, ...]}`; tags are carried by name). -/
structure Employee where
  id : Int
  name : String
  surname : String
  tags : List String
deriving DecidableEq, Repr

/-- The planning body `data.plannings`: a string-keyed map from employee id
to the slot list, each slot carried by its `amount` of hours. -/
def Plannings := List (String × List Rat)

/-- The data the availability queries read after their fetches succeed. -/
structure World where
  employees : List Employee
  plannings : List (String × List Rat)

/-- Python `key in dict` / `dict[key]` on the plannings map. -/
def lookupPlanning (ps : List (String × List Rat)) (k : String) : Option (List Rat) :=
  (ps.find? (fun q => q.fst == k)).map Prod.snd

/-- `functions.get_employees_from_practice` (reading the fetched directory):
ids of employees with a tag equal to `practice`, case-insensitively; one id
is appended per matching tag, in directory order. -/
def get_employees_from_practice (employees : List Employee) (practice : String) : List Int :=
  let p := pyLower practice
  employees.flatMap (fun e => (e.tags.filter (fun tg => pyLower tg == p)).map (fun _ => e.id))

/-- `functions.get_employee_by_name`: id of the first employee whose
`"name surname"` matches case-insensitively, `-1` when none does. -/
def get_employee_by_name (employees : List Employee) (nm : String) : Int :=
  let s := pyLower nm
  match employees.find? (fun e => s == pyLower (e.name ++ " " ++ e.surname)) with
  | some e => e.id
  | none => -1

/-- `functions.get_employee_name_by_id`: `"name surname"` of the first
employee with the given id; `none` models the `-1` not-found sentinel. -/
def get_employee_name_by_id (employees : List Employee) (eid : Int) : Option String :=
  (employees.find? (fun e => eid == e.id)).map (fun e => e.name ++ " " ++ e.surname)

/-- One availability dict produced by the engine: either the fully-free
shape `{name, amount}` or the occupied shape
`{name, amount_occupied, amount_free}`.  The `name` value is the lookup
result (`none` models the `-1` sentinel). -/
inductive AvailEntry where
  | free (name : Option String) (amount : String)
  | occupied (name : Option String) (amount_occupied : String) (amount_free : String)
deriving DecidableEq, Repr

/-- `functions.check_availability` after its two fetches: one entry per id
returned for the practice; ids absent from the plannings map get the
`{name, amount}` shape, present ids get summed slots and the
occupied/free pair. -/
def check_availability (w : World) (practice : String) (from_date to_date : Date) : List AvailEntry :=
  (get_employees_from_practice w.employees practice).map (fun eid =>
    match lookupPlanning w.plannings (toString eid) with
    | none =>
        .free (get_employee_name_by_id w.employees eid)
          (pyNumStr (calculate_load 0 from_date to_date) ++ "%")
    | some slots =>
        let total_amount := slots.foldl (· + ·) 0
        let amount_occupied := pyInt (calculate_load total_amount from_date to_date)
        .occupied (get_employee_name_by_id w.employees eid)
          (toString amount_occupied ++ "%")
          (toString (100 - amount_occupied) ++ "%"))

/-- Return value of `check_employee_availability`: the `{'error': ...}` dict
or the single-element record list. -/
inductive EmpAvailResult where
  | errorDict (msg : String)
  | records (rs : List AvailEntry)
deriving DecidableEq, Repr

/-- `functions.check_employee_availability` after its fetches: resolves the
name, answers the error dict when unresolved, otherwise a one-element list
with the occupied/free pair (hard-coded `0%`/`100%` when the id is absent
from the plannings map). -/
def check_employee_availability (w : World) (employee_name : String) (from_date to_date : Date) : EmpAvailResult :=
  let employee_id := get_employee_by_name w.employees employee_name
  if employee_id < 0 then .errorDict "Employee not found."
  else
    match lookupPlanning w.plannings (toString employee_id) with
    | none => .records [.occupied (some employee_name) "0%" "100%"]
    | some slots =>
        let total_amount := slots.foldl (· + ·) 0
        let amount_occupied := pyInt (calculate_load total_amount from_date to_date)
        .records [.occupied (some employee_name)
          (toString amount_occupied ++ "%")
          (toString (100 - amount_occupied) ++ "%")]

/-- `functions.get_employees` given the upstream HTTP response
`(status, parsed body)`: the body on status 200, otherwise
`requests.exceptions.HTTPError`. -/
def get_employees (resp : Nat × List Employee) : Except String (List Employee) :=
  if resp.fst == 200 then .ok resp.snd else .error "HTTPError"

/-- `functions.get_plannings` given the upstream HTTP response
`(status, parsed body)`: the body on status 200, otherwise
`requests.exceptions.HTTPError`. -/
def get_plannings (resp : Nat × List (String × List Rat)) : Except String (List (String × List Rat)) :=
  if resp.fst == 200 then .ok resp.snd else .error "HTTPError"

/-- `check_availability` with its fetches explicit: directory fetch first,
then the planning fetch, each failure propagating unmodified. -/
def check_availability_fetch (empResp : Nat × List Employee)
    (planResp : Nat × List (String × List Rat))
    (practice : String) (from_date to_date : Date) : Except String (List AvailEntry) :=
  match get_employees empResp with
  | .error e => .error e
  | .ok emps =>
      match get_plannings planResp with
      | .error e => .error e
      | .ok ps => .ok (check_availability ⟨emps, ps⟩ practice from_date to_date)

/-- `check_employee_availability` with its fetches explicit; the second
component counts how many planning fetches (`get_plannings` calls) were
issued.  The name is resolved before any planning fetch, and the
not-found branch returns without fetching. -/
def check_employee_availability_fetch (empResp : Nat × List Employee)
    (planResp : Nat × List (String × List Rat))
    (employee_name : String) (from_date to_date : Date) :
    Except String EmpAvailResult × Nat :=
  match get_employees empResp with
  | .error e => (.error e, 0)
  | .ok emps =>
      if get_employee_by_name emps employee_name < 0 then
        (.ok (.errorDict "Employee not found."), 0)
      else
        match get_plannings planResp with
        | .error e => (.error e, 1)
        | .ok ps => (.ok (check_employee_availability ⟨emps, ps⟩ employee_name from_date to_date), 1)

/-- Python `f"{x}"` of a dict's `name` value: the looked-up string, or the
int sentinel `-1` rendered as `"-1"`. -/
def pyNameStr : Option String → String
  | some s => s
  | none => "-1"

/-- Python `f"{x}"` of an optional string: `dict.get` misses render as
`"None"`. -/
def pyOptStr : Option String → String
  | some s => s
  | none => "None"

/-- Python `item.get("name")` on an availability dict (always present). -/
def AvailEntry.getName : AvailEntry → Option String
  | .free n _ => n
  | .occupied n _ _ => n

/-- Python `item.get("amount_free")`: absent (`None`) on the fully-free
shape. -/
def AvailEntry.getAmountFree : AvailEntry → Option String
  | .free _ _ => none
  | .occupied _ _ af => some af

/-- Python `item.get("amount_occupied")`: absent (`None`) on the fully-free
shape. -/
def AvailEntry.getAmountOccupied : AvailEntry → Option String
  | .free _ _ => none
  | .occupied _ ao _ => some ao

/-- `entities.Allocation`: name, amount free, amount occupied as built by
`GPT_conversation` from `item.get(...)`. -/
structure Allocation where
  name : Option String
  amount_free : Option String
  amount_occupied : Option String
deriving DecidableEq, Repr

/-- `Allocation.toString` from `entities.py`:
`f"{name} Amount free: {amount_free} | Amount occupied: {amount_occupied}"`. -/
def Allocation.toString (a : Allocation) : String :=
  pyNameStr a.name ++ " Amount free: " ++ pyOptStr a.amount_free ++
    " | Amount occupied: " ++ pyOptStr a.amount_occupied

/-- The flat display line `GPT_conversation` builds for one availability
dict: `Allocation(item.get("name"), item.get("amount_free"),
item.get("amount_occupied")).toString()`. -/
def renderLine (e : AvailEntry) : String :=
  (Allocation.mk e.getName e.getAmountFree e.getAmountOccupied).toString

/-- Python `"\n".join`. -/
def joinLines (ls : List String) : String :=
  String.intercalate "\n" ls

/-- The parsed JSON argument payload of one tool call; `dict.get` misses are
`none`.  Date strings are carried by their parsed calendar dates. -/
structure ToolCallArgs where
  practice : Option String
  employee_name : Option String
  from_date : Option Date
  to_date : Option Date
deriving DecidableEq, Repr

/-- One tool call requested by the model: call id, function name, parsed
argument payload. -/
structure ToolCall where
  id : String
  fname : String
  args : ToolCallArgs
deriving DecidableEq, Repr

/-- The model's reply message: optional text content plus requested tool
calls (`None` is the empty list). -/
structure AssistantMessage where
  content : Option String
  tool_calls : List ToolCall
deriving DecidableEq, Repr

/-- One chat message of the conversation `GPT_conversation` accumulates. -/
inductive Message where
  | user (content : String)
  | assistant (m : AssistantMessage)
  | tool (tool_call_id : String) (fname : String) (content : String)
deriving DecidableEq, Repr

/-- One chat-completion request: the message list and whether the tool
catalog is offered (true for the first round only). -/
structure Request where
  messages : List Message
  withTools : Bool
deriving DecidableEq, Repr

/-- A Python call outcome: a returned value or an uncaught exception. -/
inductive PyResult (α : Type) where
  | ok (val : α)
  | exn (msg : String)
deriving DecidableEq, Repr

/-- Dispatch of one tool call inside `GPT_conversation`: look the name up
in `available_functions` (`KeyError` when absent), call the function with
the `dict.get` arguments (a missing argument makes the callee fail on
`None`, modelled as `TypeError`), and render each resulting dict as a flat
line.  A `check_employee_availability` error dict makes the rendering loop
iterate the dict's keys and call `.get` on a string: `AttributeError`. -/
def dispatchCall (w : World) (tc : ToolCall) : PyResult String :=
  if tc.fname == "check_availability" then
    match tc.args.practice, tc.args.from_date, tc.args.to_date with
    | some p, some f, some t =>
        .ok (joinLines ((check_availability w p f t).map renderLine))
    | _, _, _ => .exn "TypeError"
  else if tc.fname == "check_employee_availability" then
    match tc.args.employee_name, tc.args.from_date, tc.args.to_date with
    | some n, some f, some t =>
        match check_employee_availability w n f t with
        | .errorDict _ => .exn "AttributeError"
        | .records rs => .ok (joinLines (rs.map renderLine))
    | _, _, _ => .exn "TypeError"
  else .exn "KeyError"

/-- The tool-call loop of `GPT_conversation`: dispatch each call in the
order the model requested them, appending one tool message per call; the
first exception aborts the whole request. -/
def processCalls (w : World) : List ToolCall → List Message → PyResult (List Message)
  | [], ms => .ok ms
  | tc :: rest, ms =>
      match dispatchCall w tc with
      | .exn e => .exn e
      | .ok content => processCalls w rest (ms ++ [Message.tool tc.id tc.fname content])

/-- The prompt augmentation of `GPT_conversation`: append the
current-year/current-date directive to the user's prompt. -/
def augmentPrompt (prompt : String) (currentYear : Int) (currentDate : String) : String :=
  prompt ++
    " \n If no year is specified assume the year is " ++ toString currentYear ++
    " \n Today is " ++ currentDate ++
    " \n Answer by providing the answer in a natural language without adding any questions or further details"

/-- The first completion request `GPT_conversation` issues: the augmented
prompt as the only message, with the two-tool catalog offered. -/
def firstRequest (prompt : String) (currentYear : Int) (currentDate : String) : Request :=
  ⟨[Message.user (augmentPrompt prompt currentYear currentDate)], true⟩

/-- `functions.GPT_conversation` against a scripted completion backend
`respond`: augment the prompt with the current year and date, send it with
the tool catalog; with no tool calls the function falls off its end
(Python returns `None`); otherwise append the assistant message, run the
tool-call loop, send the grown message list without tools and return the
second reply's content.  The second component records the completion
requests actually issued. -/
def GPT_conversation (w : World) (prompt : String) (currentYear : Int)
    (currentDate : String) (respond : Request → AssistantMessage) :
    PyResult (Option String) × List Request :=
  let messages : List Message := [Message.user (augmentPrompt prompt currentYear currentDate)]
  let req1 : Request := firstRequest prompt currentYear currentDate
  let resp := respond req1
  match resp.tool_calls with
  | [] => (.ok none, [req1])
  | _ =>
      let grown := messages ++ [Message.assistant resp]
      match processCalls w resp.tool_calls grown with
      | .exn e => (.exn e, [req1])
      | .ok finalMessages =>
          let req2 : Request := ⟨finalMessages, false⟩
          let resp2 := respond req2
          (.ok resp2.content, [req1, req2])

/-- Number of calendar days of the inclusive range whose weekday is
Monday–Friday, written from the spec's words (independently of the
`calculate_hours` loop). -/
def weekdayCount (from_date to_date : Date) : Nat :=
  (List.range (rataDie to_date + 1 - rataDie from_date)).countP
    (fun i => decide (pyWeekday (rataDie from_date + i) < 5))

/-- The `calculate_hours` loop sums 8 per weekday among the `n` days
starting at `start`. -/
theorem hoursFrom_countP (n : Nat) :
    ∀ s, hoursFrom s n = 8 * (List.range n).countP (fun i => decide (pyWeekday (s + i) < 5)) := by
  induction n with
  | zero => intro s; simp [hoursFrom]
  | succ k ih =>
      intro s
      rw [List.range_succ_eq_map, List.countP_cons, List.countP_map]
      have hshift : ((fun i => decide (pyWeekday (s + i) < 5)) ∘ Nat.succ)
          = (fun i => decide (pyWeekday (s + 1 + i) < 5)) := by
        funext i
        have : s + Nat.succ i = s + 1 + i := by omega
        simp [Function.comp, this]
      rw [hshift]
      simp only [hoursFrom, ih (s + 1), Nat.add_zero]
      by_cases hw : pyWeekday s < 5
      · simp [hw]; omega
      · simp [hw]

/-- C2: for every pair of dates, `calculate_hours` equals 8 times the number
of Monday–Friday calendar days of the inclusive range; on a single day it is
8 exactly when the day is a weekday; and when `from_date > to_date` it is 0
rather than an error. -/
theorem C2_calculate_hours (f t : Date) :
    calculate_hours f t = 8 * weekdayCount f t ∧
    calculate_hours f f = (if pyWeekday (rataDie f) < 5 then 8 else 0) ∧
    (dateGt f t = true → calculate_hours f t = 0) := by
  refine ⟨?_, ?_, ?_⟩
  · unfold calculate_hours weekdayCount dateGt
    by_cases hlt : rataDie t < rataDie f
    · have hz : rataDie t + 1 - rataDie f = 0 := by omega
      simp [hlt, hz]
    · have hd : rataDie t + 1 - rataDie f = rataDie t - rataDie f + 1 := by omega
      rw [if_neg (by simpa using hlt), hd]
      exact hoursFrom_countP _ _
  · have : ¬ rataDie f < rataDie f := lt_irrefl _
    simp [calculate_hours, dateGt, this, hoursFrom]
  · intro h
    simp [calculate_hours, h]

/-- C2 witness: one full July 2024 week is 40 hours = 8 × 5 weekdays, and a
reversed range yields 0. -/
theorem C2_witness :
    calculate_hours ⟨2024, 7, 1⟩ ⟨2024, 7, 7⟩ = 8 * weekdayCount ⟨2024, 7, 1⟩ ⟨2024, 7, 7⟩ ∧
    calculate_hours ⟨2024, 7, 8⟩ ⟨2024, 7, 7⟩ = 0 :=
  ⟨(C2_calculate_hours ⟨2024, 7, 1⟩ ⟨2024, 7, 7⟩).1,
   (C2_calculate_hours ⟨2024, 7, 8⟩ ⟨2024, 7, 7⟩).2.2 (by decide)⟩

/-- C7: whenever the business hours of the range are 0 — in particular for
every reversed range — `calculate_load` returns the int 0 for any allocated
hours, so the division branch is never reached. -/
theorem C7_load_zero_guard (h : Rat) (f t : Date) :
    (calculate_hours f t = 0 → calculate_load h f t = .pint 0) ∧
    (dateGt f t = true → calculate_load h f t = .pint 0) := by
  constructor
  · intro hz
    simp [calculate_load, hz]
  · intro hgt
    have hz : calculate_hours f t = 0 := by simp [calculate_hours, hgt]
    simp [calculate_load, hz]

/-- C7 witness: a weekend range and a reversed range both yield the int 0,
for nonzero allocated hours. -/
theorem C7_witness :
    calculate_load 999 ⟨2024, 7, 6⟩ ⟨2024, 7, 7⟩ = .pint 0 ∧
    calculate_load 5 ⟨2024, 7, 2⟩ ⟨2024, 7, 1⟩ = .pint 0 :=
  ⟨(C7_load_zero_guard 999 ⟨2024, 7, 6⟩ ⟨2024, 7, 7⟩).1 (by decide),
   (C7_load_zero_guard 5 ⟨2024, 7, 2⟩ ⟨2024, 7, 1⟩).2 (by decide)⟩

/-- Python `int()` on a nonnegative float is the floor. -/
theorem pyInt_pfloat_nonneg (q : Rat) (hq : 0 ≤ q) : pyInt (.pfloat q) = ⌊q⌋ := by
  simp [pyInt, hq]

/-- The fully-free branch formats `calculate_load(0, ..)` with an f-string:
the int `0` when the range has no business hours, the float `0.0`
otherwise. -/
theorem pyNumStr_load_zero (f t : Date) :
    pyNumStr (calculate_load 0 f t) = (if calculate_hours f t = 0 then "0" else "0.0") := by
  by_cases hz : calculate_hours f t = 0
  · simp only [calculate_load, hz]
    rfl
  · have h0 : (0 : Rat) / (calculate_hours f t : Rat) * 100 = 0 := by
      rw [zero_div, zero_mul]
    simp only [calculate_load, hz, beq_iff_eq, if_neg hz, h0, if_neg, pyNumStr]
    rfl

/-- C1 counterexample: a practice employee absent from the plannings map,
over a range with positive business hours, is emitted with
`amount = "0.0%"` (Python formats the float `0.0`), not `"0%"` as claimed. -/
theorem C1_counterexample :
    check_availability ⟨[⟨1, "Ada", "Lovelace", ["Technology"]⟩], []⟩
        "Technology" ⟨2024, 7, 1⟩ ⟨2024, 7, 2⟩
      = [.free (some "Ada Lovelace") "0.0%"] ∧
    calculate_hours ⟨2024, 7, 1⟩ ⟨2024, 7, 2⟩ = 16 ∧
    "0.0%" ≠ "0%" := by
  refine ⟨by with_unfolding_all decide, by decide, by decide⟩

/-- C1 amended: a practice employee absent from the plannings map is emitted
as a `{name, amount}` record whose amount is `"0%"` when the range has zero
business hours and `"0.0%"` otherwise (the formula value is always zero, but
it is a float whenever the division is reached). -/
theorem C1_amended (w : World) (practice : String) (f t : Date) (eid : Int)
    (hmem : eid ∈ get_employees_from_practice w.employees practice)
    (habs : lookupPlanning w.plannings (toString eid) = none) :
    AvailEntry.free (get_employee_name_by_id w.employees eid)
        ((if calculate_hours f t = 0 then "0" else "0.0") ++ "%")
      ∈ check_availability w practice f t := by
  unfold check_availability
  refine List.mem_map.mpr ⟨eid, hmem, ?_⟩
  rw [habs, pyNumStr_load_zero]

/-- C1 witness: the amended statement at the counterexample's input. -/
theorem C1_witness :
    AvailEntry.free (get_employee_name_by_id [⟨1, "Ada", "Lovelace", ["Technology"]⟩] 1)
        ((if calculate_hours ⟨2024, 7, 1⟩ ⟨2024, 7, 2⟩ = 0 then "0" else "0.0") ++ "%")
      ∈ check_availability ⟨[⟨1, "Ada", "Lovelace", ["Technology"]⟩], []⟩
          "Technology" ⟨2024, 7, 1⟩ ⟨2024, 7, 2⟩ :=
  C1_amended ⟨[⟨1, "Ada", "Lovelace", ["Technology"]⟩], []⟩ "Technology"
    ⟨2024, 7, 1⟩ ⟨2024, 7, 2⟩ 1 (by decide) (by decide)

/-- C3 counterexample: an employee present in the plannings map with one
0-hour slot over a weekend range has summed allocated hours (0) equal to the
business hours of the range (0), yet is emitted with
`amount_occupied = "0%"` and `amount_free = "100%"`, not `"100%"`/`"0%"` as
the claim's equal-hours clause demands. -/
theorem C3_counterexample :
    check_availability ⟨[⟨1, "Ada", "Lovelace", ["Technology"]⟩], [("1", [0])]⟩
        "Technology" ⟨2024, 7, 6⟩ ⟨2024, 7, 7⟩
      = [.occupied (some "Ada Lovelace") "0%" "100%"] ∧
    [(0 : Rat)].foldl (· + ·) 0 = ((calculate_hours ⟨2024, 7, 6⟩ ⟨2024, 7, 7⟩ : Nat) : Rat) ∧
    "0%" ≠ "100%" := by
  refine ⟨by with_unfolding_all decide, by with_unfolding_all decide, by decide⟩

/-- C3 amended: for an employee present in the plannings map the engine sums
the slot amounts and emits the occupied/free percentage pair, where the
occupied integer is the truncation of the load percentage — equal to its
floor whenever the summed hours are nonnegative, 0 when the range has zero
business hours — and when the summed hours equal the business hours of a
range with positive business hours the pair is `"100%"`/`"0%"`. -/
theorem C3_amended (w : World) (practice : String) (f t : Date) (eid : Int)
    (slots : List Rat) (total : Rat) (occ : Int)
    (hmem : eid ∈ get_employees_from_practice w.employees practice)
    (hlook : lookupPlanning w.plannings (toString eid) = some slots)
    (htotal : total = slots.foldl (· + ·) 0)
    (hocc : occ = pyInt (calculate_load total f t)) :
    AvailEntry.occupied (get_employee_name_by_id w.employees eid)
        (toString occ ++ "%") (toString (100 - occ) ++ "%")
      ∈ check_availability w practice f t ∧
    (0 ≤ total → calculate_hours f t ≠ 0 →
      (occ : Rat) ≤ total / (calculate_hours f t : Rat) * 100 ∧
      total / (calculate_hours f t : Rat) * 100 < (occ : Rat) + 1) ∧
    (calculate_hours f t = 0 → occ = 0) ∧
    (total = (calculate_hours f t : Rat) → calculate_hours f t ≠ 0 →
      occ = 100 ∧ toString occ ++ "%" = "100%" ∧ toString (100 - occ) ++ "%" = "0%") := by
  refine ⟨?_, ?_, ?_, ?_⟩
  · unfold check_availability
    refine List.mem_map.mpr ⟨eid, hmem, ?_⟩
    rw [hlook]
    simp only [← htotal, ← hocc]
  · intro hnn hz
    have hq : (0 : Rat) ≤ total / (calculate_hours f t : Rat) * 100 := by
      have hden : (0 : Rat) ≤ (calculate_hours f t : Rat) := Nat.cast_nonneg _
      positivity
    have : occ = ⌊total / (calculate_hours f t : Rat) * 100⌋ := by
      rw [hocc, calculate_load]
      simp only [beq_iff_eq, if_neg hz]
      exact pyInt_pfloat_nonneg _ hq
    rw [this]
    exact ⟨Int.floor_le _, Int.lt_floor_add_one _⟩
  · intro hz
    rw [hocc, calculate_load]
    simp [hz, pyInt]
  · intro heq hz
    have hden : (calculate_hours f t : Rat) ≠ 0 := Nat.cast_ne_zero.mpr hz
    have hq : total / (calculate_hours f t : Rat) * 100 = 100 := by
      rw [heq, div_self hden, one_mul]
    have hocc' : occ = 100 := by
      rw [hocc, calculate_load]
      simp only [beq_iff_eq, if_neg hz, hq]
      with_unfolding_all decide
    refine ⟨hocc', ?_, ?_⟩ <;> rw [hocc'] <;> rfl

/-- C3 witness: one 8-hour slot on a single Monday fills the 8 business
hours exactly, giving `"100%"` occupied / `"0%"` free. -/
theorem C3_witness :
    AvailEntry.occupied (get_employee_name_by_id [⟨1, "Ada", "Lovelace", ["Technology"]⟩] 1)
        (toString (pyInt (calculate_load ([(8 : Rat)].foldl (· + ·) 0) ⟨2024, 7, 1⟩ ⟨2024, 7, 1⟩)) ++ "%")
        (toString (100 - pyInt (calculate_load ([(8 : Rat)].foldl (· + ·) 0) ⟨2024, 7, 1⟩ ⟨2024, 7, 1⟩)) ++ "%")
      ∈ check_availability ⟨[⟨1, "Ada", "Lovelace", ["Technology"]⟩], [("1", [8])]⟩
          "Technology" ⟨2024, 7, 1⟩ ⟨2024, 7, 1⟩ ∧
    pyInt (calculate_load ([(8 : Rat)].foldl (· + ·) 0) ⟨2024, 7, 1⟩ ⟨2024, 7, 1⟩) = 100 :=
  have h := C3_amended ⟨[⟨1, "Ada", "Lovelace", ["Technology"]⟩], [("1", [8])]⟩
    "Technology" ⟨2024, 7, 1⟩ ⟨2024, 7, 1⟩ 1 [8]
    ([(8 : Rat)].foldl (· + ·) 0)
    (pyInt (calculate_load ([(8 : Rat)].foldl (· + ·) 0) ⟨2024, 7, 1⟩ ⟨2024, 7, 1⟩))
    (by decide) (by decide) rfl rfl
  ⟨h.1, (h.2.2.2 (by with_unfolding_all decide) (by decide)).1⟩

/-- C10 counterexample: 201 allocated hours against 200 business hours
(2024-07-01 to 2024-08-02, 25 weekdays) exceed capacity, yet truncation of
the 100.5% load yields `amount_occupied = "100%"` and `amount_free = "0%"` —
not strictly greater than 100% with a negative free percentage as claimed. -/
theorem C10_counterexample :
    calculate_hours ⟨2024, 7, 1⟩ ⟨2024, 8, 2⟩ = 200 ∧
    ((calculate_hours ⟨2024, 7, 1⟩ ⟨2024, 8, 2⟩ : Nat) : Rat) < [(201 : Rat)].foldl (· + ·) 0 ∧
    check_availability ⟨[⟨1, "Ada", "Lovelace", ["Technology"]⟩], [("1", [201])]⟩
        "Technology" ⟨2024, 7, 1⟩ ⟨2024, 8, 2⟩
      = [.occupied (some "Ada Lovelace") "100%" "0%"] := by
  refine ⟨by decide, by with_unfolding_all decide, by with_unfolding_all decide⟩

/-- C10 amended: when the summed allocated hours exceed the positive
business hours of the range, both queries emit an occupied percentage of at
least 100 and a free percentage of at most 0, with no clamping to [0, 100]:
the occupied value is strictly greater than 100 and the free value negative
if and only if the load percentage reaches 101. -/
theorem C10_amended (w : World) (practice employee_name : String) (f t : Date)
    (eid : Int) (slots : List Rat) (total : Rat) (occ : Int)
    (hlook : lookupPlanning w.plannings (toString eid) = some slots)
    (htotal : total = slots.foldl (· + ·) 0)
    (hocc : occ = pyInt (calculate_load total f t))
    (hz : calculate_hours f t ≠ 0)
    (hexceed : ((calculate_hours f t : Nat) : Rat) < total) :
    100 ≤ occ ∧ 100 - occ ≤ 0 ∧
    ((101 : Rat) ≤ total / (calculate_hours f t : Rat) * 100 ↔ 100 < occ ∧ 100 - occ < 0) ∧
    (eid ∈ get_employees_from_practice w.employees practice →
      AvailEntry.occupied (get_employee_name_by_id w.employees eid)
          (toString occ ++ "%") (toString (100 - occ) ++ "%")
        ∈ check_availability w practice f t) ∧
    (get_employee_by_name w.employees employee_name = eid → 0 ≤ eid →
      check_employee_availability w employee_name f t =
        .records [.occupied (some employee_name)
          (toString occ ++ "%") (toString (100 - occ) ++ "%")]) := by
  have hden : (0 : Rat) < (calculate_hours f t : Rat) := by
    exact_mod_cast Nat.pos_of_ne_zero hz
  have hq : (0 : Rat) ≤ total / (calculate_hours f t : Rat) * 100 := by
    have htot : (0 : Rat) ≤ total := le_of_lt (lt_of_le_of_lt (Nat.cast_nonneg _) hexceed)
    positivity
  have hfloor : occ = ⌊total / (calculate_hours f t : Rat) * 100⌋ := by
    rw [hocc, calculate_load]
    simp only [beq_iff_eq, if_neg hz]
    exact pyInt_pfloat_nonneg _ hq
  have h100 : 100 ≤ occ := by
    rw [hfloor]
    refine Int.le_floor.mpr ?_
    have h1 : (1 : Rat) < total / (calculate_hours f t : Rat) :=
      (one_lt_div hden).mpr hexceed
    have := mul_le_mul_of_nonneg_right (le_of_lt h1) (by norm_num : (0 : Rat) ≤ 100)
    calc ((100 : Int) : Rat) = 1 * 100 := by norm_num
    _ ≤ total / (calculate_hours f t : Rat) * 100 := this
  refine ⟨h100, by omega, ?_, ?_, ?_⟩
  · constructor
    · intro h101
      have : (101 : Int) ≤ occ := by
        rw [hfloor]
        exact Int.le_floor.mpr (by exact_mod_cast h101)
      omega
    · intro hgt
      have h101 : (101 : Int) ≤ occ := by omega
      rw [hfloor] at h101
      exact_mod_cast Int.le_floor.mp h101
  · intro hmem
    unfold check_availability
    refine List.mem_map.mpr ⟨eid, hmem, ?_⟩
    rw [hlook]
    simp only [← htotal, ← hocc]
  · intro hres hnn
    unfold check_employee_availability
    rw [hres, if_neg (by omega), hlook]
    simp only [← htotal, ← hocc]

/-- C10 witness: 201 hours against a single 40-hour week is a 502.5% load,
emitted as `"502%"` occupied and `"-402%"` free — negative, unclamped. -/
theorem C10_witness :
    (100 ≤ pyInt (calculate_load ([(201 : Rat)].foldl (· + ·) 0) ⟨2024, 7, 1⟩ ⟨2024, 7, 5⟩) ∧
      check_employee_availability ⟨[⟨1, "Ada", "Lovelace", ["Technology"]⟩], [("1", [201])]⟩
          "Ada Lovelace" ⟨2024, 7, 1⟩ ⟨2024, 7, 5⟩ =
        .records [.occupied (some "Ada Lovelace")
          (toString (pyInt (calculate_load ([(201 : Rat)].foldl (· + ·) 0) ⟨2024, 7, 1⟩ ⟨2024, 7, 5⟩)) ++ "%")
          (toString (100 - pyInt (calculate_load ([(201 : Rat)].foldl (· + ·) 0) ⟨2024, 7, 1⟩ ⟨2024, 7, 5⟩)) ++ "%")]) ∧
    pyInt (calculate_load ([(201 : Rat)].foldl (· + ·) 0) ⟨2024, 7, 1⟩ ⟨2024, 7, 5⟩) = 502 :=
  have h := C10_amended ⟨[⟨1, "Ada", "Lovelace", ["Technology"]⟩], [("1", [201])]⟩
    "Technology" "Ada Lovelace" ⟨2024, 7, 1⟩ ⟨2024, 7, 5⟩ 1 [201]
    ([(201 : Rat)].foldl (· + ·) 0)
    (pyInt (calculate_load ([(201 : Rat)].foldl (· + ·) 0) ⟨2024, 7, 1⟩ ⟨2024, 7, 5⟩))
    (by decide) rfl rfl (by decide) (by with_unfolding_all decide)
  ⟨⟨h.1, h.2.2.2.2 (by with_unfolding_all decide) (by decide)⟩,
   by with_unfolding_all decide⟩

/-- C4: when the name matches no directory entry, the employee query
returns the `{'error': 'Employee not found.'}` record — no exception — and
issues zero planning fetches, whatever the planning upstream would answer. -/
theorem C4_unknown_employee (employees : List Employee)
    (planResp : Nat × List (String × List Rat)) (nm : String) (f t : Date)
    (hres : employees.find? (fun e => pyLower nm == pyLower (e.name ++ " " ++ e.surname)) = none) :
    check_employee_availability_fetch (200, employees) planResp nm f t
      = (.ok (.errorDict "Employee not found."), 0) := by
  have hid : get_employee_by_name employees nm = -1 := by
    unfold get_employee_by_name
    simp only [hres]
  simp [check_employee_availability_fetch, get_employees, hid]

/-- C4 witness: the unknown name `"Ghost Nobody"` yields the error record
and no planning fetch, even though the planning upstream would answer 500. -/
theorem C4_witness :
    check_employee_availability_fetch (200, [⟨1, "Ada", "Lovelace", ["Technology"]⟩])
        (500, []) "Ghost Nobody" ⟨2024, 7, 1⟩ ⟨2024, 7, 5⟩
      = (.ok (.errorDict "Employee not found."), 0) :=
  C4_unknown_employee [⟨1, "Ada", "Lovelace", ["Technology"]⟩] (500, [])
    "Ghost Nobody" ⟨2024, 7, 1⟩ ⟨2024, 7, 5⟩ (by decide)

/-- C8: each fetcher fails with the upstream error exactly when the status
is not 200 and returns the parsed body on 200; both availability queries
propagate the first failure unmodified (the employee query only reaches the
planning fetch once the name resolves). -/
theorem C8_upstream_errors (empResp : Nat × List Employee)
    (planResp : Nat × List (String × List Rat))
    (practice nm : String) (f t : Date) :
    (get_employees empResp = .error "HTTPError" ↔ empResp.fst ≠ 200) ∧
    (empResp.fst = 200 → get_employees empResp = .ok empResp.snd) ∧
    (get_plannings planResp = .error "HTTPError" ↔ planResp.fst ≠ 200) ∧
    (planResp.fst = 200 → get_plannings planResp = .ok planResp.snd) ∧
    (empResp.fst ≠ 200 →
      check_availability_fetch empResp planResp practice f t = .error "HTTPError" ∧
      check_employee_availability_fetch empResp planResp nm f t = (.error "HTTPError", 0)) ∧
    (empResp.fst = 200 → planResp.fst ≠ 200 →
      check_availability_fetch empResp planResp practice f t = .error "HTTPError" ∧
      (0 ≤ get_employee_by_name empResp.snd nm →
        check_employee_availability_fetch empResp planResp nm f t = (.error "HTTPError", 1))) := by
  have hemp : ∀ h : empResp.fst ≠ 200, get_employees empResp = .error "HTTPError" := by
    intro h
    unfold get_employees
    rw [if_neg (by simpa using h)]
  have hplan : ∀ h : planResp.fst ≠ 200, get_plannings planResp = .error "HTTPError" := by
    intro h
    unfold get_plannings
    rw [if_neg (by simpa using h)]
  refine ⟨?_, ?_, ?_, ?_, ?_, ?_⟩
  · constructor
    · intro h
      by_contra hc
      simp [get_employees, hc] at h
    · exact hemp
  · intro h
    simp [get_employees, h]
  · constructor
    · intro h
      by_contra hc
      simp [get_plannings, hc] at h
    · exact hplan
  · intro h
    simp [get_plannings, h]
  · intro h
    constructor
    · unfold check_availability_fetch
      rw [hemp h]
    · unfold check_employee_availability_fetch
      rw [hemp h]
  · intro h hp
    have hok : get_employees empResp = .ok empResp.snd := by simp [get_employees, h]
    constructor
    · unfold check_availability_fetch
      rw [hok, hplan hp]
    · intro hfound
      simp only [check_employee_availability_fetch, hok]
      rw [if_neg (by omega), hplan hp]

/-- C8 witness: a 500 directory response fails both queries with the
upstream error; with a healthy directory, a 404 planning response fails
both queries as well (for a resolvable name). -/
theorem C8_witness :
    check_availability_fetch (500, []) (200, []) "Technology" ⟨2024, 7, 1⟩ ⟨2024, 7, 5⟩
      = .error "HTTPError" ∧
    check_availability_fetch (200, [⟨1, "Ada", "Lovelace", ["Technology"]⟩]) (404, [])
        "Technology" ⟨2024, 7, 1⟩ ⟨2024, 7, 5⟩ = .error "HTTPError" ∧
    check_employee_availability_fetch (200, [⟨1, "Ada", "Lovelace", ["Technology"]⟩]) (404, [])
        "Ada Lovelace" ⟨2024, 7, 1⟩ ⟨2024, 7, 5⟩ = (.error "HTTPError", 1) :=
  ⟨((C8_upstream_errors (500, []) (200, []) "Technology" "x" ⟨2024, 7, 1⟩ ⟨2024, 7, 5⟩).2.2.2.2.1
      (by decide)).1,
   ((C8_upstream_errors (200, [⟨1, "Ada", "Lovelace", ["Technology"]⟩]) (404, [])
      "Technology" "Ada Lovelace" ⟨2024, 7, 1⟩ ⟨2024, 7, 5⟩).2.2.2.2.2 rfl (by decide)).1,
   ((C8_upstream_errors (200, [⟨1, "Ada", "Lovelace", ["Technology"]⟩]) (404, [])
      "Technology" "Ada Lovelace" ⟨2024, 7, 1⟩ ⟨2024, 7, 5⟩).2.2.2.2.2 rfl (by decide)).2
      (by decide)⟩

/-- C5 (code bug): when the model's first reply carries zero tool calls,
`GPT_conversation` skips the `if tool_calls:` block and falls off its end:
it returns Python `None`, not the reply's text (`"Everyone is available."`
here), despite its `-> str` annotation and the spec's prescription. -/
theorem C5_no_toolcalls_returns_none :
    (GPT_conversation ⟨[⟨1, "Ada", "Lovelace", ["Technology"]⟩], []⟩
        "Who is available?" 2024 "2024-07-01"
        (fun _ => ⟨some "Everyone is available.", []⟩)).fst = .ok none ∧
    (PyResult.ok (some "Everyone is available.") : PyResult (Option String)) ≠ .ok none :=
  ⟨rfl, by decide⟩

/-- A successful tool-call loop appends exactly one tool message per call,
in request order, carrying the matching call id and function name. -/
theorem processCalls_ok (w : World) :
    ∀ (tcs : List ToolCall) (ms fin : List Message),
      processCalls w tcs ms = .ok fin →
      ∃ toolMsgs, fin = ms ++ toolMsgs ∧
        List.Forall₂ (fun tc m => ∃ c, m = Message.tool tc.id tc.fname c) tcs toolMsgs := by
  intro tcs
  induction tcs with
  | nil =>
      intro ms fin h
      refine ⟨[], ?_, List.Forall₂.nil⟩
      simp only [processCalls] at h
      cases h
      simp
  | cons tc rest ih =>
      intro ms fin h
      simp only [processCalls] at h
      cases hd : dispatchCall w tc with
      | exn e => rw [hd] at h; cases h
      | ok content =>
          rw [hd] at h
          obtain ⟨tms, h1, h2⟩ := ih _ _ h
          refine ⟨Message.tool tc.id tc.fname content :: tms, ?_, ?_⟩
          · rw [h1, List.append_assoc]
            rfl
          · exact List.Forall₂.cons ⟨content, rfl⟩ h2

/-- A well-formed tool call for an employee name that resolves to no one. -/
def ghostCall : ToolCall :=
  ⟨"call_1", "check_employee_availability",
    ⟨none, some "Ghost Nobody", some ⟨2024, 7, 1⟩, some ⟨2024, 7, 5⟩⟩⟩

/-- A scripted backend requesting exactly the `ghostCall` tool call in the
first round. -/
def ghostRespond : Request → AssistantMessage := fun r =>
  if r.withTools then ⟨none, [ghostCall]⟩ else ⟨some "unreached", []⟩

/-- C6 counterexample: one well-formed `check_employee_availability` tool
call whose employee name resolves to no one makes the dispatch iterate the
`{'error': ...}` dict and crash (`AttributeError`), so only the first
completion request is ever issued — no second request of any length. -/
theorem C6_counterexample :
    GPT_conversation ⟨[⟨1, "Ada", "Lovelace", ["Technology"]⟩], []⟩ "hi" 2024 "2024-07-01"
        ghostRespond
      = (.exn "AttributeError", [firstRequest "hi" 2024 "2024-07-01"]) ∧
    (ghostRespond (firstRequest "hi" 2024 "2024-07-01")).tool_calls.length = 1 := by
  refine ⟨rfl, rfl⟩

/-- C6 amended: when the first reply carries tool calls and every dispatch
succeeds (known function, record-list result), the second completion
request is issued with the initial message plus the assistant message plus
one tool message per call — the tool messages appearing in the order the
model requested the calls, each tagged with its call id and function
name. -/
theorem C6_amended (w : World) (prompt : String) (cy : Int) (cd : String)
    (respond : Request → AssistantMessage) (fin : List Message)
    (hne : (respond (firstRequest prompt cy cd)).tool_calls ≠ [])
    (hok : processCalls w (respond (firstRequest prompt cy cd)).tool_calls
        [Message.user (augmentPrompt prompt cy cd),
         Message.assistant (respond (firstRequest prompt cy cd))] = .ok fin) :
    (GPT_conversation w prompt cy cd respond).snd
      = [firstRequest prompt cy cd, ⟨fin, false⟩] ∧
    fin.length = 1 + 1 + (respond (firstRequest prompt cy cd)).tool_calls.length ∧
    ∃ toolMsgs,
      fin = [Message.user (augmentPrompt prompt cy cd),
             Message.assistant (respond (firstRequest prompt cy cd))] ++ toolMsgs ∧
      List.Forall₂ (fun tc m => ∃ c, m = Message.tool tc.id tc.fname c)
        (respond (firstRequest prompt cy cd)).tool_calls toolMsgs := by
  obtain ⟨toolMsgs, hfin, hf2⟩ := processCalls_ok w _ _ _ hok
  have hlen : fin.length = 2 + toolMsgs.length := by
    rw [hfin]
    simp only [List.length_append, List.length_cons, List.length_nil]
  have hlen2 : toolMsgs.length = (respond (firstRequest prompt cy cd)).tool_calls.length :=
    (List.Forall₂.length_eq hf2).symm
  refine ⟨?_, by omega, toolMsgs, hfin, hf2⟩
  unfold GPT_conversation
  cases hcalls : (respond (firstRequest prompt cy cd)).tool_calls with
  | nil => exact absurd hcalls hne
  | cons tc rest =>
      rw [hcalls] at hok
      simp only [hcalls, List.cons_append, List.nil_append, hok]

/-- The directory/planning data for the two-call conversation example:
one Technology employee with an 8-hour slot on 2024-07-01. -/
def exampleWorld : World :=
  ⟨[⟨1, "Ada", "Lovelace", ["Technology"]⟩], [("1", [8])]⟩

/-- A practice-availability tool call for Technology on 2024-07-01. -/
def exampleCall1 : ToolCall :=
  ⟨"call_1", "check_availability", ⟨some "Technology", none, some ⟨2024, 7, 1⟩, some ⟨2024, 7, 1⟩⟩⟩

/-- An employee-availability tool call for Ada Lovelace on 2024-07-01. -/
def exampleCall2 : ToolCall :=
  ⟨"call_2", "check_employee_availability",
    ⟨none, some "Ada Lovelace", some ⟨2024, 7, 1⟩, some ⟨2024, 7, 1⟩⟩⟩

/-- A scripted backend requesting the two example calls in the first round
and answering plainly in the second. -/
def exampleRespond : Request → AssistantMessage := fun r =>
  if r.withTools then ⟨none, [exampleCall1, exampleCall2]⟩ else ⟨some "done", []⟩

/-- The message list of the second request in the two-call example run. -/
def exampleFinal : List Message :=
  [Message.user (augmentPrompt "Who is free?" 2024 "2024-07-01"),
   Message.assistant ⟨none, [exampleCall1, exampleCall2]⟩,
   Message.tool "call_1" "check_availability"
     "Ada Lovelace Amount free: 0% | Amount occupied: 100%",
   Message.tool "call_2" "check_employee_availability"
     "Ada Lovelace Amount free: 0% | Amount occupied: 100%"]

/-- C6 witness: with two successfully dispatched tool calls, the second
request carries 1 + 1 + 2 messages, tool results in request order. -/
theorem C6_witness :
    (GPT_conversation exampleWorld "Who is free?" 2024 "2024-07-01" exampleRespond).snd
      = [firstRequest "Who is free?" 2024 "2024-07-01", ⟨exampleFinal, false⟩] ∧
    exampleFinal.length
      = 1 + 1 + (exampleRespond (firstRequest "Who is free?" 2024 "2024-07-01")).tool_calls.length :=
  have h := C6_amended exampleWorld "Who is free?" 2024 "2024-07-01" exampleRespond
    exampleFinal (by decide) (by with_unfolding_all decide)
  ⟨h.1, h.2.1⟩

/-- C9: a `check_availability` tool call with well-formed arguments is
dispatched to the flat-line renderer, and the line rendered for every
fully-free `{name, amount}` record is
`"<name> Amount free: None | Amount occupied: None"`, because
`item.get("amount_free")` and `item.get("amount_occupied")` are absent from
that record shape and Python formats `None`. -/
theorem C9_free_record_render (w : World) (tc : ToolCall) (p : String) (f t : Date)
    (hn : tc.fname = "check_availability")
    (hp : tc.args.practice = some p)
    (hf : tc.args.from_date = some f)
    (ht : tc.args.to_date = some t) :
    dispatchCall w tc = .ok (joinLines ((check_availability w p f t).map renderLine)) ∧
    ∀ nm amount, AvailEntry.free nm amount ∈ check_availability w p f t →
      renderLine (.free nm amount)
        = pyNameStr nm ++ " Amount free: None | Amount occupied: None" := by
  constructor
  · unfold dispatchCall
    rw [hn]
    simp only [hp, hf, ht]
    rfl
  · intro nm amount _
    simp only [renderLine, Allocation.toString, AvailEntry.getName,
      AvailEntry.getAmountFree, AvailEntry.getAmountOccupied, pyOptStr]
    rw [String.append_assoc, String.append_assoc, String.append_assoc]
    congr 1

/-- C9 witness: the example tool call over an empty plannings map renders
the fully-free Ada Lovelace record as the claimed `None`/`None` line. -/
theorem C9_witness :
    dispatchCall ⟨[⟨1, "Ada", "Lovelace", ["Technology"]⟩], []⟩ exampleCall1
      = .ok (joinLines ((check_availability ⟨[⟨1, "Ada", "Lovelace", ["Technology"]⟩], []⟩
          "Technology" ⟨2024, 7, 1⟩ ⟨2024, 7, 1⟩).map renderLine)) ∧
    renderLine (.free (some "Ada Lovelace") "0.0%")
      = "Ada Lovelace Amount free: None | Amount occupied: None" :=
  have h := C9_free_record_render ⟨[⟨1, "Ada", "Lovelace", ["Technology"]⟩], []⟩
    exampleCall1 "Technology" ⟨2024, 7, 1⟩ ⟨2024, 7, 1⟩ rfl rfl rfl rfl
  ⟨h.1, by
    have := h.2 (some "Ada Lovelace") "0.0%" (by with_unfolding_all decide)
    rw [this]
    rfl⟩
